import Mathlib

/-!
Verification of the IWT image-generation scripts (`generate-images.py`,
`generate-process-images.py`, `generate-hero.py`) against their
specification.  The scripts are shallowly embedded below: bytes are `Nat`
values below 256, the filesystem is an association list from path strings
to byte lists, the remote API response is a structure mirroring the JSON
shape the scripts inspect, and the outcome of each remote call is an
`Except` value supplied as a parameter (the network itself is outside the
model).
-/

namespace IWT

/-! ### Base64 (model of Python's `base64.b64encode` / `base64.b64decode`,
used by `save_image` in both batch scripts and by the hero script) -/

/-- The standard base64 alphabet, in index order. -/
def b64Chars : List Char :=
  "ABCDEFGHIJKLMNOPQRSTUVWXYZabcdefghijklmnopqrstuvwxyz0123456789+/".data

/-- Character for a six-bit group. -/
def sextetChar (n : Nat) : Char :=
  b64Chars.getD n 'A'

/-- Six-bit group for an alphabet character (index in the alphabet). -/
def charSextet (c : Char) : Nat :=
  b64Chars.indexOf c

/-- RFC 4648 base64 encoding of a byte list (bytes are `Nat < 256`),
producing the character stream with `=` padding. -/
def b64encode : List Nat → List Char
  | [] => []
  | [b1] =>
      [sextetChar (b1 / 4), sextetChar (b1 % 4 * 16), '=', '=']
  | [b1, b2] =>
      [sextetChar (b1 / 4), sextetChar (b1 % 4 * 16 + b2 / 16),
       sextetChar (b2 % 16 * 4), '=']
  | b1 :: b2 :: b3 :: rest =>
      sextetChar (b1 / 4) ::
      sextetChar (b1 % 4 * 16 + b2 / 16) ::
      sextetChar (b2 % 16 * 4 + b3 / 64) ::
      sextetChar (b3 % 64) ::
      b64encode rest

/-- RFC 4648 base64 decoding of a character stream in four-character
chunks, honouring `=` padding; malformed tails decode to `[]`. -/
def b64decode : List Char → List Nat
  | c1 :: c2 :: c3 :: c4 :: rest =>
      let s1 := charSextet c1
      let s2 := charSextet c2
      if c3 = '=' then
        [s1 * 4 + s2 / 16]
      else
        let s3 := charSextet c3
        if c4 = '=' then
          [s1 * 4 + s2 / 16, s2 % 16 * 16 + s3 / 4]
        else
          (s1 * 4 + s2 / 16) ::
          (s2 % 16 * 16 + s3 / 4) ::
          (s3 % 4 * 64 + charSextet c4) ::
          b64decode rest
  | _ => []

/-- Decode a base64 string (as the scripts do with `base64.b64decode`). -/
def b64decodeStr (s : String) : List Nat :=
  b64decode s.data

/-- Encode a byte list to a base64 string. -/
def b64encodeStr (b : List Nat) : String :=
  String.mk (b64encode b)

theorem charSextet_sextetChar : ∀ n < 64, charSextet (sextetChar n) = n := by decide

theorem sextetChar_ne_pad : ∀ n < 64, sextetChar n ≠ '=' := by decide

theorem b64_roundtrip : ∀ l : List Nat, (∀ b ∈ l, b < 256) →
    b64decode (b64encode l) = l
  | [], _ => rfl
  | [b1], h => by
      have hb1 : b1 < 256 := h b1 (by simp)
      have h1 : b1 / 4 < 64 := by omega
      have h2 : b1 % 4 * 16 < 64 := by omega
      simp only [b64encode, b64decode]
      rw [charSextet_sextetChar _ h1, charSextet_sextetChar _ h2]
      simp
      omega
  | [b1, b2], h => by
      have hb1 : b1 < 256 := h b1 (by simp)
      have hb2 : b2 < 256 := h b2 (by simp)
      have h1 : b1 / 4 < 64 := by omega
      have h2 : b1 % 4 * 16 + b2 / 16 < 64 := by omega
      have h3 : b2 % 16 * 4 < 64 := by omega
      simp only [b64encode, b64decode]
      rw [if_neg (sextetChar_ne_pad _ h3)]
      rw [charSextet_sextetChar _ h1, charSextet_sextetChar _ h2,
          charSextet_sextetChar _ h3]
      simp
      omega
  | b1 :: b2 :: b3 :: rest, h => by
      have hb1 : b1 < 256 := h b1 (by simp)
      have hb2 : b2 < 256 := h b2 (by simp)
      have hb3 : b3 < 256 := h b3 (by simp)
      have h1 : b1 / 4 < 64 := by omega
      have h2 : b1 % 4 * 16 + b2 / 16 < 64 := by omega
      have h3 : b2 % 16 * 4 + b3 / 64 < 64 := by omega
      have h4 : b3 % 64 < 64 := by omega
      have ih := b64_roundtrip rest (fun b hb => h b (by simp [hb]))
      simp only [b64encode, b64decode]
      rw [if_neg (sextetChar_ne_pad _ h3)]
      rw [if_neg (sextetChar_ne_pad _ h4)]
      rw [charSextet_sextetChar _ h1, charSextet_sextetChar _ h2,
          charSextet_sextetChar _ h3, charSextet_sextetChar _ h4]
      simp [ih]
      omega

/-! ### Substring test (model of Python's `'png' in mime_type`) -/

/-- Whether `pat` occurs as a contiguous run inside `l`. -/
def hasSub (l pat : List Char) : Bool :=
  match l with
  | [] => pat.isEmpty
  | _ :: rest => pat.isPrefixOf l || hasSub rest pat

/-- Python's `pat in s` on strings. -/
def pyContains (s pat : String) : Bool :=
  hasSub s.data pat.data

/-! ### Data model -/

/-- The `inlineData` dict returned by the API and threaded through the
scripts: a mime type and a base64 payload. -/
structure GeneratedImage where
  mimeType : String
  data : String
deriving DecidableEq, Repr

/-- One entry of `image_prompts` / `process_steps`: a name used as the
output filename stem, and a free-text prompt. -/
structure PromptSpec where
  name : String
  prompt : String
deriving DecidableEq, Repr

/-- One element of a candidate's `content.parts`; the scripts only look
at whether it carries `inlineData`. -/
structure ApiPart where
  inlineData : Option GeneratedImage
deriving DecidableEq, Repr

/-- One element of the response's `candidates` list. -/
structure ApiCandidate where
  parts : List ApiPart
deriving DecidableEq, Repr

/-- The `error` object of a response body; `message` may be absent
(the scripts then report `Unknown error`). -/
structure ApiError where
  message : Option String
deriving DecidableEq, Repr

/-- A decoded HTTP-success response body as the scripts inspect it:
an optional top-level `error` key and the `candidates` list. -/
structure ApiResult where
  error : Option ApiError
  candidates : List ApiCandidate
deriving DecidableEq, Repr

/-! ### Response parsing (`generate_image` in `generate-images.py` lines
112-130 and `generate-process-images.py` lines 143-160; both scripts have
the identical scan) -/

/-- First `inlineData` payload, scanning candidates in order and each
candidate's parts in order — the nested `for` loops with early return. -/
def firstInline (cands : List ApiCandidate) : Option GeneratedImage :=
  cands.findSome? (fun c => c.parts.findSome? (fun p => p.inlineData))

/-- Response handling of `generate_image` on an HTTP-success body:
an `error` key raises its message, otherwise the first inline image is
returned, otherwise `No image in response` is raised. -/
def parse_response (r : ApiResult) : Except String GeneratedImage :=
  match r.error with
  | some e => .error (e.message.getD "Unknown error")
  | none =>
      match firstInline r.candidates with
      | some img => .ok img
      | none => .error "No image in response"

/-! ### Saving (`save_image`, identical in `generate-images.py` lines
137-146 and `generate-process-images.py` lines 167-176) -/

/-- The in-memory filesystem: an association list from path to bytes. -/
abbrev Fs : Type := List (String × List Nat)

/-- `Path.write_bytes`: overwrite the entry at `fname` if present,
otherwise append a new file. -/
def fsWrite (fs : Fs) (fname : String) (bytes : List Nat) : Fs :=
  if fs.any (fun p => p.1 == fname) then
    fs.map (fun p => if p.1 == fname then (fname, bytes) else p)
  else
    fs ++ [(fname, bytes)]

/-- Extension chosen by `save_image`: `png` when the mime type contains
`png`, else `jpg`. -/
def save_ext (image_data : GeneratedImage) : String :=
  if pyContains image_data.mimeType "png" then "png" else "jpg"

/-- The path `images_dir / name.ext` built by `save_image`. -/
def save_filename (name : String) (image_data : GeneratedImage) : String :=
  "images/" ++ name ++ "." ++ save_ext image_data

/-- `save_image`: decode the base64 payload and write it to
`images/<name>.<ext>`; returns the updated filesystem and the path. -/
def save_image (fs : Fs) (name : String) (image_data : GeneratedImage) :
    Fs × String :=
  let filename := save_filename name image_data
  (fsWrite fs filename (b64decodeStr image_data.data), filename)

/-! ### The batch loop (`main` of `generate-images.py` lines 149-171).
The outcome of each remote call is supplied alongside its spec: `.ok img`
when `generate_image` and the save both succeed, `.error msg` when the
iteration's body raises. -/

/-- Counters and files accumulated by `main`'s loop. -/
structure BatchState where
  files : Fs
  successful : Nat
  failed : Nat
deriving DecidableEq, Repr

/-- One loop iteration per entry: on success save the image and bump
`successful`; on failure bump `failed` and continue. -/
def runBatchAux : BatchState → List (PromptSpec × Except String GeneratedImage) → BatchState
  | st, [] => st
  | st, (spec, r) :: rest =>
      match r with
      | .ok img =>
          runBatchAux ⟨(save_image st.files spec.name img).1,
                       st.successful + 1, st.failed⟩ rest
      | .error _ =>
          runBatchAux ⟨st.files, st.successful, st.failed + 1⟩ rest

/-- `main`'s loop started on an empty output directory and zeroed
counters. -/
def run_batch (items : List (PromptSpec × Except String GeneratedImage)) : BatchState :=
  runBatchAux ⟨[], 0, 0⟩ items

/-! ### Event trace of the batch loop (for the rate-limit delay claim).
`time.sleep(3)` sits inside the `try`, after `save_image`, so it runs
only on success (`generate-images.py` lines 158-166; the loop of
`generate-process-images.py` lines 189-200 places it identically). -/

/-- Observable events of one run of `main`'s loop. -/
inductive BatchEvent where
  | call (i : Nat)
  | save (i : Nat)
  | sleep (i : Nat)
  | fail (i : Nat)
deriving DecidableEq, Repr

/-- Events of iteration `i`: a successful body calls, saves and sleeps;
a failing body calls and hits the `except` clause — no sleep. -/
def itemEvents (i : Nat) (r : Except String GeneratedImage) : List BatchEvent :=
  match r with
  | .ok _ => [.call i, .save i, .sleep i]
  | .error _ => [.call i, .fail i]

/-- Trace of the loop from iteration index `s` on. -/
def batchTraceFrom : Nat → List (Except String GeneratedImage) → List BatchEvent
  | _, [] => []
  | i, r :: rest => itemEvents i r ++ batchTraceFrom (i + 1) rest

/-- Full event trace of `main`'s loop over the outcome list `rs`. -/
def batchTrace (rs : List (Except String GeneratedImage)) : List BatchEvent :=
  batchTraceFrom 0 rs

/-- The events strictly between `call i` and `call (i+1)` (to the end of
the trace when there is no later call). -/
def betweenCalls (t : List BatchEvent) (i : Nat) : List BatchEvent :=
  ((t.dropWhile (fun e => !decide (e = BatchEvent.call i))).drop 1).takeWhile
    (fun e => !decide (e = BatchEvent.call (i + 1)))

/-! ### The chaining loop (`main` of `generate-process-images.py` lines
179-200): `previous_image` is set to the step's image on success and
reset to `None` on failure. -/

/-- The contexts (`previous_image` arguments) passed to the successive
`generate_image` calls, given each step's outcome. -/
def runChainedAux : Option GeneratedImage → List (Except String GeneratedImage) →
    List (Option GeneratedImage)
  | _, [] => []
  | prev, r :: rest =>
      prev :: runChainedAux (match r with
                             | .ok img => some img
                             | .error _ => none) rest

/-- Context trace of the chaining loop, which starts with
`previous_image = None`. -/
def contextTrace (rs : List (Except String GeneratedImage)) :
    List (Option GeneratedImage) :=
  runChainedAux none rs

/-! ### Startup guard (`generate-images.py` lines 18-29,
`generate-process-images.py` lines 12-20): the API-key check runs before
the `images` directory is created and before `main` does anything. -/

/-- Actions a script run can perform, in order. -/
inductive SysAction where
  | printMsg (s : String)
  | mkdirImages
  | networkCall (i : Nat)
  | writeFile (name : String)
deriving DecidableEq, Repr

/-- Module-level flow of `generate-images.py`: the guard fires when the
variable is unset or empty (Python truthiness of `not API_KEY`); `body`
abstracts everything `main` would do. Returns the performed actions and
the process exit code. -/
def gi_script (apiKey : Option String) (body : List SysAction) :
    List SysAction × Nat :=
  if (apiKey.getD "").isEmpty then
    ([.printMsg "Error: GEMINI_API_KEY environment variable not set",
      .printMsg "Get your API key from: https://aistudio.google.com/apikey",
      .printMsg "Then run: export GEMINI_API_KEY=your-key-here"], 1)
  else
    (SysAction.mkdirImages :: body, 0)

/-- Module-level flow of `generate-process-images.py`. -/
def gp_script (apiKey : Option String) (body : List SysAction) :
    List SysAction × Nat :=
  if (apiKey.getD "").isEmpty then
    ([.printMsg "Error: GEMINI_API_KEY environment variable not set"], 1)
  else
    (SysAction.mkdirImages :: body, 0)

/-! ### The hero script (`generate-hero.py` lines 38-69): same nested
scan for `inlineData`, but no `error` check, and a missing image only
prints a diagnostic — the function returns normally either way. -/

/-- Result of `generate_image` in `generate-hero.py` on a decoded
HTTP-success body: files written, console output, process exit code. -/
structure HeroOutcome where
  files : Fs
  output : List String
  exitCode : Nat
deriving DecidableEq, Repr

/-- `generate_image` of the hero script: write `images/hero-bg.<ext>`
for the first inline payload, else print `No image generated`. -/
def hero_generate (r : ApiResult) : HeroOutcome :=
  match firstInline r.candidates with
  | some img =>
      let ext := if pyContains img.mimeType "png" then "png" else "jpg"
      let filename := "images/hero-bg." ++ ext
      ⟨[(filename, b64decodeStr img.data)],
       ["Generating hero background...", "Saved: " ++ filename], 0⟩
  | none =>
      ⟨[], ["Generating hero background...", "No image generated"], 0⟩

/-! ### Helper lemmas -/

theorem findSome?_flatten (cs : List ApiCandidate)
    (f : ApiPart → Option GeneratedImage) :
    (cs.flatMap (fun c => c.parts)).findSome? f =
      cs.findSome? (fun c => c.parts.findSome? f) := by
  induction cs with
  | nil => rfl
  | cons c rest ih =>
      rw [List.flatMap_cons, List.findSome?_append, List.findSome?_cons, ih]
      cases c.parts.findSome? f <;> simp [Option.or]

theorem string_data_append (s t : String) : (s ++ t).data = s.data ++ t.data := by
  cases s
  cases t
  rfl

theorem string_data_inj {s t : String} (h : s.data = t.data) : s = t := by
  cases s
  cases t
  exact congrArg String.mk h

theorem save_ext_cases (img : GeneratedImage) :
    save_ext img = "png" ∨ save_ext img = "jpg" := by
  unfold save_ext
  split
  · exact Or.inl rfl
  · exact Or.inr rfl

theorem save_filename_inj {n1 n2 : String} (img1 img2 : GeneratedImage)
    (h : n1 ≠ n2) : save_filename n1 img1 ≠ save_filename n2 img2 := by
  intro heq
  apply h
  have hd := congrArg String.data heq
  simp only [save_filename, string_data_append] at hd
  have hlen : (save_ext img1).data.length = (save_ext img2).data.length := by
    rcases save_ext_cases img1 with h1 | h1 <;>
      rcases save_ext_cases img2 with h2 | h2 <;> rw [h1, h2] <;> decide
  have hmid : n1.data ++ (".".data ++ (save_ext img1).data) =
      n2.data ++ (".".data ++ (save_ext img2).data) := by
    apply @List.append_cancel_left _ ("images/".data)
    simpa [List.append_assoc] using hd
  have := List.append_inj' hmid (by simp [hlen])
  exact string_data_inj this.1

theorem fsWrite_fresh (fs : Fs) (fname : String) (bytes : List Nat)
    (h : ∀ p ∈ fs, p.1 ≠ fname) :
    fsWrite fs fname bytes = fs ++ [(fname, bytes)] := by
  unfold fsWrite
  rw [if_neg]
  simp only [List.any_eq_true, beq_iff_eq, not_exists, not_and]
  intro p hp
  simpa using h p hp

/-- Whether an entry's remote call (and save) succeeded. -/
def callOk (x : PromptSpec × Except String GeneratedImage) : Bool :=
  match x.2 with
  | .ok _ => true
  | .error _ => false

theorem runBatchAux_counts : ∀ (items : List (PromptSpec × Except String GeneratedImage))
    (st : BatchState),
    (runBatchAux st items).successful =
      st.successful + items.countP callOk
    ∧ (runBatchAux st items).failed =
      st.failed + items.countP (fun x => !callOk x)
  | [], st => by simp [runBatchAux]
  | (spec, r) :: rest, st => by
      cases r with
      | ok img =>
          have ih := runBatchAux_counts rest
            ⟨(save_image st.files spec.name img).1, st.successful + 1, st.failed⟩
          simp only [runBatchAux] at *
          constructor
          · rw [ih.1]; simp [List.countP_cons, callOk]; omega
          · rw [ih.2]; simp [List.countP_cons, callOk]
      | error msg =>
          have ih := runBatchAux_counts rest ⟨st.files, st.successful, st.failed + 1⟩
          simp only [runBatchAux] at *
          constructor
          · rw [ih.1]; simp [List.countP_cons, callOk]
          · rw [ih.2]; simp [List.countP_cons, callOk]; omega

/-- Output filename of an entry whose call succeeded (junk on failure;
only used under an all-successes hypothesis). -/
def entryFilename (x : PromptSpec × Except String GeneratedImage) : String :=
  match x.2 with
  | .ok img => save_filename x.1.name img
  | .error _ => ""

theorem runBatchAux_files_allOk :
    ∀ (items : List (PromptSpec × Except String GeneratedImage)) (st : BatchState),
    (∀ x ∈ items, callOk x = true) →
    (∀ x ∈ items, ∀ p ∈ st.files, p.1 ≠ entryFilename x) →
    (items.map entryFilename).Nodup →
    (runBatchAux st items).files.length = st.files.length + items.length
  | [], st, _, _, _ => by simp [runBatchAux]
  | (spec, r) :: rest, st, hok, hfresh, hnodup => by
      cases r with
      | error msg =>
          have hcontra := hok (spec, .error msg) (by simp)
          simp [callOk] at hcontra
      | ok img =>
          rw [List.map_cons, List.nodup_cons] at hnodup
          have hfname : entryFilename (spec, Except.ok img) = save_filename spec.name img := rfl
          have hw : (save_image st.files spec.name img).1 =
              st.files ++ [(save_filename spec.name img, b64decodeStr img.data)] := by
            apply fsWrite_fresh
            intro p hp
            exact hfresh (spec, .ok img) (by simp) p hp
          have ih := runBatchAux_files_allOk rest
            ⟨(save_image st.files spec.name img).1, st.successful + 1, st.failed⟩
            (fun x hx => hok x (by simp [hx]))
            (by
              intro x hx p hp
              rw [hw] at hp
              rcases List.mem_append.mp hp with hp1 | hp2
              · exact hfresh x (by simp [hx]) p hp1
              · have hpe : p = (save_filename spec.name img, b64decodeStr img.data) := by
                  simpa using hp2
                rw [hpe]
                intro hcontra
                apply hnodup.1
                rw [hfname]
                simp only at hcontra
                rw [hcontra]
                exact List.mem_map_of_mem entryFilename hx)
            hnodup.2
          simp only [runBatchAux] at *
          rw [ih, hw]
          simp
          omega

theorem runChainedAux_length : ∀ (rs : List (Except String GeneratedImage))
    (prev : Option GeneratedImage),
    (runChainedAux prev rs).length = rs.length
  | [], _ => rfl
  | _ :: rest, prev => by
      simp [runChainedAux, runChainedAux_length rest]

theorem contextTrace_length (rs : List (Except String GeneratedImage)) :
    (contextTrace rs).length = rs.length :=
  runChainedAux_length rs none

theorem runChainedAux_get : ∀ (rs : List (Except String GeneratedImage))
    (prev : Option GeneratedImage) (k : Nat) (h : k + 1 < rs.length)
    (h2 : k + 1 < (runChainedAux prev rs).length),
    (runChainedAux prev rs).get ⟨k + 1, h2⟩ =
      match rs.get ⟨k, by omega⟩ with
      | .ok img => some img
      | .error _ => none
  | r :: rest, prev, 0, h, h2 => by
      match rest, h with
      | r' :: rest', _ => cases r <;> rfl
  | r :: rest, prev, k + 1, h, h2 => by
      have h' : k + 1 < rest.length := by simpa using h
      cases r with
      | ok img =>
          have h2' : k + 1 < (runChainedAux (some img) rest).length := by
            rw [runChainedAux_length]
            exact h'
          exact runChainedAux_get rest (some img) k h' h2'
      | error msg =>
          have h2' : k + 1 < (runChainedAux none rest).length := by
            rw [runChainedAux_length]
            exact h'
          exact runChainedAux_get rest none k h' h2'

/-- Iteration index an event belongs to. -/
def evIdx : BatchEvent → Nat
  | .call i => i
  | .save i => i
  | .sleep i => i
  | .fail i => i

theorem batchTraceFrom_append : ∀ (l1 l2 : List (Except String GeneratedImage)) (s : Nat),
    batchTraceFrom s (l1 ++ l2) =
      batchTraceFrom s l1 ++ batchTraceFrom (s + l1.length) l2
  | [], l2, s => by simp [batchTraceFrom]
  | r :: rest, l2, s => by
      have ih := batchTraceFrom_append rest l2 (s + 1)
      show itemEvents s r ++ batchTraceFrom (s + 1) (rest ++ l2) =
        (itemEvents s r ++ batchTraceFrom (s + 1) rest) ++
          batchTraceFrom (s + (rest.length + 1)) l2
      rw [ih, ← List.append_assoc]
      have heq : s + 1 + rest.length = s + (rest.length + 1) := by omega
      rw [heq]

theorem batchTraceFrom_idx : ∀ (l : List (Except String GeneratedImage)) (s : Nat)
    (e : BatchEvent), e ∈ batchTraceFrom s l → evIdx e < s + l.length
  | [], s, e, h => by simp [batchTraceFrom] at h
  | r :: rest, s, e, h => by
      rw [batchTraceFrom, List.mem_append] at h
      rcases h with h1 | h2
      · have : evIdx e = s := by
          cases r <;> simp [itemEvents] at h1 <;>
            rcases h1 with rfl | rfl | rfl <;> rfl
        simp [this]
      · have := batchTraceFrom_idx rest (s + 1) e h2
        simp only [List.length_cons]
        omega

/-! ### Claim theorems -/

/-- C2: For every list of entries, whatever each call's outcome, the batch
loop never lets a per-item failure escape (it is a total function of the
outcomes), the failure counter counts exactly the failing entries, and the
final counts satisfy successes + failures = N. -/
theorem C2_run_batch_counts (items : List (PromptSpec × Except String GeneratedImage)) :
    (run_batch items).successful + (run_batch items).failed = items.length
    ∧ (run_batch items).failed = items.countP (fun x => !callOk x) := by
  have h := runBatchAux_counts items ⟨[], 0, 0⟩
  have hl := List.length_eq_countP_add_countP callOk items
  have hconv : (fun a => decide ¬(callOk a = true)) =
      (fun x : PromptSpec × Except String GeneratedImage => !callOk x) := by
    funext a
    cases hca : callOk a <;> simp [hca]
  rw [hconv] at hl
  have h1 := h.1
  have h2 := h.2
  simp at h1 h2
  constructor
  · simp only [run_batch]
    rw [h1, h2]
    omega
  · simp only [run_batch]
    exact h2

/-- C5: When the API-key environment variable is absent, both batch
scripts stop at the startup guard with exit code 1: only the diagnostic
prints happen, and no directory creation, network request or file write
occurs — whatever the rest of the script would have done. -/
theorem C5_missing_key_guard (body1 body2 : List SysAction) :
    (gi_script none body1).2 = 1
    ∧ (gp_script none body2).2 = 1
    ∧ SysAction.mkdirImages ∉ (gi_script none body1).1
    ∧ SysAction.mkdirImages ∉ (gp_script none body2).1
    ∧ (∀ i, SysAction.networkCall i ∉ (gi_script none body1).1)
    ∧ (∀ i, SysAction.networkCall i ∉ (gp_script none body2).1)
    ∧ (∀ f, SysAction.writeFile f ∉ (gi_script none body1).1)
    ∧ (∀ f, SysAction.writeFile f ∉ (gp_script none body2).1) := by
  refine ⟨rfl, rfl, ?_, ?_, ?_, ?_, ?_, ?_⟩ <;> intros <;>
    simp [gi_script, gp_script, show ("" : String).isEmpty = true from rfl]

/-- C6: `save_image` writes the decoded payload to `images/<name>.png`
when the mime type is `image/png`, to `images/<name>.jpg` when it is
`image/jpeg`, and picks the `jpg` extension for every mime type that does
not contain `png`. -/
theorem C6_save_extension (fs : Fs) (name data : String) :
    (save_image fs name ⟨"image/png", data⟩ =
      (fsWrite fs ("images/" ++ name ++ ".png") (b64decodeStr data),
       "images/" ++ name ++ ".png"))
    ∧ (save_image fs name ⟨"image/jpeg", data⟩ =
      (fsWrite fs ("images/" ++ name ++ ".jpg") (b64decodeStr data),
       "images/" ++ name ++ ".jpg"))
    ∧ (∀ img : GeneratedImage, pyContains img.mimeType "png" = false →
        save_ext img = "jpg") := by
  have hassoc : ∀ (x e : String), x ++ "." ++ e = x ++ ("." ++ e) := by
    intro x e
    apply string_data_inj
    simp only [string_data_append, List.append_assoc]
  refine ⟨?_, ?_, ?_⟩
  · have hfn : save_filename name ⟨"image/png", data⟩ = "images/" ++ name ++ ".png" := by
      simp only [save_filename]
      rw [show save_ext ⟨"image/png", data⟩ = "png" from rfl]
      exact hassoc ("images/" ++ name) "png"
    simp only [save_image]
    rw [hfn]
  · have hfn : save_filename name ⟨"image/jpeg", data⟩ = "images/" ++ name ++ ".jpg" := by
      simp only [save_filename]
      rw [show save_ext ⟨"image/jpeg", data⟩ = "jpg" from rfl]
      exact hassoc ("images/" ++ name) "jpg"
    simp only [save_image]
    rw [hfn]
  · intro img h
    simp [save_ext, h]

/-- Witness for C6 at concrete inputs: a PNG payload lands at
`images/modular-plant-1.png` with its decoded bytes, and a mime type
without `png` yields the `jpg` extension. -/
theorem C6_save_extension_witness :
    save_image [] "modular-plant-1" ⟨"image/png", "TQD/"⟩ =
      ([("images/modular-plant-1.png", [77, 0, 255])], "images/modular-plant-1.png")
    ∧ save_ext ⟨"image/jpeg", "AA=="⟩ = "jpg" := by
  constructor
  · have h := (C6_save_extension [] "modular-plant-1" "TQD/").1
    rw [h]
    decide
  · exact (C6_save_extension [] "" "").2.2 ⟨"image/jpeg", "AA=="⟩ (by decide)

/-- C7: On an HTTP-success response without an `error` key, `generate_image`
fails with `No image in response` when no part of any candidate carries
inline image data, and returns the first inline payload in
candidate-then-part scan order when one exists. -/
theorem C7_first_inline (r : ApiResult) (hno : r.error = none) :
    ((∀ p ∈ r.candidates.flatMap (fun c => c.parts), p.inlineData = none) →
      parse_response r = Except.error "No image in response")
    ∧ (∀ d, (r.candidates.flatMap (fun c => c.parts)).findSome?
          (fun p => p.inlineData) = some d →
      parse_response r = Except.ok d) := by
  constructor
  · intro hall
    have h1 : firstInline r.candidates = none := by
      rw [firstInline, ← findSome?_flatten]
      exact List.findSome?_eq_none_iff.mpr hall
    simp [parse_response, hno, h1]
  · intro d hd
    have h1 : firstInline r.candidates = some d := by
      rw [firstInline, ← findSome?_flatten]
      exact hd
    simp [parse_response, hno, h1]

/-- Witness for C7: an error-free response with an empty first candidate
and an image in the second is parsed to that image; one with no image
parts at all fails with the expected message. -/
theorem C7_first_inline_witness :
    parse_response ⟨none, [⟨[⟨none⟩]⟩, ⟨[⟨none⟩, ⟨some ⟨"image/png", "AA=="⟩⟩]⟩]⟩ =
      Except.ok ⟨"image/png", "AA=="⟩
    ∧ parse_response ⟨none, [⟨[⟨none⟩]⟩]⟩ = Except.error "No image in response" := by
  constructor
  · exact (C7_first_inline ⟨none, [⟨[⟨none⟩]⟩, ⟨[⟨none⟩, ⟨some ⟨"image/png", "AA=="⟩⟩]⟩]⟩ rfl).2
      ⟨"image/png", "AA=="⟩ (by decide)
  · exact (C7_first_inline ⟨none, [⟨[⟨none⟩]⟩]⟩ rfl).1 (by decide)

/-- C8: Decoding a base64-encoded byte sequence and writing it through
`save_image` stores exactly the original bytes — the decode-and-write path
introduces no corruption. -/
theorem C8_persist_roundtrip (name mime : String) (b : List Nat)
    (hb : ∀ x ∈ b, x < 256) :
    (save_image [] name ⟨mime, b64encodeStr b⟩).1 =
      [(save_filename name ⟨mime, b64encodeStr b⟩, b)] := by
  have hdec : b64decodeStr (b64encodeStr b) = b := b64_roundtrip b hb
  simp [save_image, fsWrite, hdec]

/-- Witness for C8: a five-byte fixture survives the encode, decode and
write path byte for byte. -/
theorem C8_persist_roundtrip_witness :
    (save_image [] "hero" ⟨"image/png", b64encodeStr [77, 0, 255, 1, 2]⟩).1 =
      [("images/hero.png", [77, 0, 255, 1, 2])] := by
  have h := C8_persist_roundtrip "hero" "image/png" [77, 0, 255, 1, 2] (by decide)
  rw [h]
  decide

/-- C9: In the batch scripts, the application-level `error` key wins over
image extraction — `generate_image` raises the error message even when the
same response also carries an inline image payload. -/
theorem C9_error_precedence (r : ApiResult) (e : ApiError) (d : GeneratedImage)
    (he : r.error = some e) (_hd : firstInline r.candidates = some d) :
    parse_response r = Except.error (e.message.getD "Unknown error") := by
  simp [parse_response, he]

/-- Witness for C9: a response with both an error message and an inline
image parses to the error. -/
theorem C9_error_precedence_witness :
    parse_response ⟨some ⟨some "quota exceeded"⟩,
        [⟨[⟨some ⟨"image/png", "AA=="⟩⟩]⟩]⟩ =
      Except.error "quota exceeded" :=
  C9_error_precedence ⟨some ⟨some "quota exceeded"⟩, [⟨[⟨some ⟨"image/png", "AA=="⟩⟩]⟩]⟩
    ⟨some "quota exceeded"⟩ ⟨"image/png", "AA=="⟩ rfl rfl

/-- C10: On an HTTP-success response with no inline image payload, the
hero script completes normally with exit code 0, printing a diagnostic
and writing no file — unlike the batch scripts' `generate_image`, which
raises `No image in response` on the same body. -/
theorem C10_hero_no_image (r : ApiResult)
    (h : ∀ p ∈ r.candidates.flatMap (fun c => c.parts), p.inlineData = none) :
    hero_generate r =
      ⟨[], ["Generating hero background...", "No image generated"], 0⟩
    ∧ (r.error = none → parse_response r = Except.error "No image in response") := by
  have h1 : firstInline r.candidates = none := by
    rw [firstInline, ← findSome?_flatten]
    exact List.findSome?_eq_none_iff.mpr h
  constructor
  · simp [hero_generate, h1]
  · intro hno
    simp [parse_response, hno, h1]

/-- Witness for C10: an image-less success body leaves the hero run with
no files and exit code 0, where the batch parser reports a failure. -/
theorem C10_hero_no_image_witness :
    hero_generate ⟨none, [⟨[⟨none⟩]⟩]⟩ =
      ⟨[], ["Generating hero background...", "No image generated"], 0⟩
    ∧ parse_response ⟨none, [⟨[⟨none⟩]⟩]⟩ = Except.error "No image in response" :=
  ⟨(C10_hero_no_image ⟨none, [⟨[⟨none⟩]⟩]⟩ (by decide)).1,
   (C10_hero_no_image ⟨none, [⟨[⟨none⟩]⟩]⟩ (by decide)).2 rfl⟩

/-- C1: When every entry's call succeeds (and the names are pairwise
distinct, as the data model requires), the batch writes exactly one file
per entry — N files for N entries — and the final summary reports N
successes and 0 failures. -/
theorem C1_run_batch_all_success (items : List (PromptSpec × Except String GeneratedImage))
    (hok : ∀ x ∈ items, callOk x = true)
    (hnames : (items.map (fun x => x.1.name)).Nodup) :
    (run_batch items).files.length = items.length
    ∧ (run_batch items).successful = items.length
    ∧ (run_batch items).failed = 0 := by
  have hcounts := runBatchAux_counts items ⟨[], 0, 0⟩
  have hsucc : items.countP callOk = items.length := by
    rw [List.countP_eq_length]
    exact hok
  have hfail : items.countP (fun x => !callOk x) = 0 := by
    rw [List.countP_eq_zero]
    intro a ha
    simp [hok a ha]
  have hp : items.Pairwise (fun a b => a.1.name ≠ b.1.name) := by
    have h := hnames
    unfold List.Nodup at h
    exact List.pairwise_map.mp h
  have hp2 : items.Pairwise (fun a b => entryFilename a ≠ entryFilename b) := by
    refine List.Pairwise.imp_of_mem ?_ hp
    intro a b ha hb hne
    have hoa := hok a ha
    have hob := hok b hb
    cases ha2 : a.2 with
    | error m =>
        rw [callOk, ha2] at hoa
        simp at hoa
    | ok imga =>
        cases hb2 : b.2 with
        | error m =>
            rw [callOk, hb2] at hob
            simp at hob
        | ok imgb =>
            simp only [entryFilename, ha2, hb2]
            exact save_filename_inj imga imgb hne
  have hnodupf : (items.map entryFilename).Nodup := by
    unfold List.Nodup
    exact List.pairwise_map.mpr hp2
  have hfiles := runBatchAux_files_allOk items ⟨[], 0, 0⟩ hok
    (by intro x hx p hp0; simp at hp0) hnodupf
  have h1 := hcounts.1
  have h2 := hcounts.2
  simp at h1 h2 hfiles
  exact ⟨hfiles, by simp only [run_batch]; rw [h1, hsucc],
    by simp only [run_batch]; rw [h2, hfail]⟩

/-- Witness for C1: two distinct-name entries, both succeeding, give two
files, two successes, no failure. -/
theorem C1_run_batch_all_success_witness :
    (run_batch [(⟨"modular-plant-1", "p1"⟩, Except.ok ⟨"image/png", "AA=="⟩),
                (⟨"modular-plant-2", "p2"⟩, Except.ok ⟨"image/jpeg", "BB=="⟩)]).files.length = 2
    ∧ (run_batch [(⟨"modular-plant-1", "p1"⟩, Except.ok ⟨"image/png", "AA=="⟩),
                  (⟨"modular-plant-2", "p2"⟩, Except.ok ⟨"image/jpeg", "BB=="⟩)]).successful = 2
    ∧ (run_batch [(⟨"modular-plant-1", "p1"⟩, Except.ok ⟨"image/png", "AA=="⟩),
                  (⟨"modular-plant-2", "p2"⟩, Except.ok ⟨"image/jpeg", "BB=="⟩)]).failed = 0 :=
  C1_run_batch_all_success
    [(⟨"modular-plant-1", "p1"⟩, Except.ok ⟨"image/png", "AA=="⟩),
     (⟨"modular-plant-2", "p2"⟩, Except.ok ⟨"image/jpeg", "BB=="⟩)]
    (by decide) (by decide)

/-- C3: In the chaining loop, the context handed to call k+1 is the image
produced by step k when step k succeeded, and nothing at all when step k
failed — never the image of an earlier step. -/
theorem C3_chained_context (rs : List (Except String GeneratedImage)) (k : Nat)
    (h : k + 1 < rs.length) :
    (contextTrace rs).get ⟨k + 1, by rw [contextTrace_length]; exact h⟩ =
      match rs.get ⟨k, by omega⟩ with
      | .ok img => some img
      | .error _ => none :=
  runChainedAux_get rs none k h (by rw [runChainedAux_length]; exact h)

/-- Witness for C3: after a success the next context is that image; after
the failure at step 1 the context of step 2 is `none`, not the image of
step 0. -/
theorem C3_chained_context_witness :
    (contextTrace [Except.ok ⟨"image/png", "AA=="⟩, Except.error "boom",
        Except.ok ⟨"image/jpeg", "BB=="⟩]).get ⟨1, by decide⟩ =
      some ⟨"image/png", "AA=="⟩
    ∧ (contextTrace [Except.ok ⟨"image/png", "AA=="⟩, Except.error "boom",
        Except.ok ⟨"image/jpeg", "BB=="⟩]).get ⟨2, by decide⟩ = none :=
  ⟨C3_chained_context [Except.ok ⟨"image/png", "AA=="⟩, Except.error "boom",
      Except.ok ⟨"image/jpeg", "BB=="⟩] 0 (by decide),
   C3_chained_context [Except.ok ⟨"image/png", "AA=="⟩, Except.error "boom",
      Except.ok ⟨"image/jpeg", "BB=="⟩] 1 (by decide)⟩

/-- C4 counterexample: with a failing first entry and a succeeding second
one, the events between `call 0` and `call 1` are just the failure — no
sleep separates the two calls, because `time.sleep(3)` sits inside the
`try` after the save and is skipped when the body raises. -/
theorem C4_sleep_counterexample :
    BatchEvent.sleep 0 ∉
      betweenCalls (batchTrace [Except.error "boom", Except.ok ⟨"image/png", "AA=="⟩]) 0
    ∧ betweenCalls (batchTrace [Except.error "boom", Except.ok ⟨"image/png", "AA=="⟩]) 0 =
      [BatchEvent.fail 0] := by
  decide

/-- C4 (amended): the fixed rate-limit delay separates call i from the
next call exactly when entry i's handling succeeded; after a failed entry
the loop proceeds with no intervening sleep. -/
theorem C4_sleep_after_success (rs : List (Except String GeneratedImage)) (i : Nat)
    (img : GeneratedImage) (h : i < rs.length)
    (hok : rs.get ⟨i, h⟩ = Except.ok img) :
    BatchEvent.sleep i ∈ betweenCalls (batchTrace rs) i := by
  have hlen : (rs.take i).length = i := by
    rw [List.length_take]
    omega
  have hsplit : batchTrace rs =
      batchTraceFrom 0 (rs.take i) ++ batchTraceFrom i (rs.drop i) := by
    conv =>
      lhs
      rw [batchTrace, ← List.take_append_drop i rs]
    rw [batchTraceFrom_append, hlen, Nat.zero_add]
  have hgetElem : rs[i] = Except.ok img := by
    rw [← hok]
    rfl
  have hdrop : rs.drop i = Except.ok img :: rs.drop (i + 1) := by
    rw [List.drop_eq_getElem_cons h, hgetElem]
  have hall : ∀ a ∈ batchTraceFrom 0 (rs.take i),
      (fun e => !decide (e = BatchEvent.call i)) a = true := by
    intro a ha
    have hidx := batchTraceFrom_idx (rs.take i) 0 a ha
    rw [hlen] at hidx
    simp only [Bool.not_eq_true', decide_eq_false_iff_not]
    intro ha2
    rw [ha2] at hidx
    simp [evIdx] at hidx
  rw [betweenCalls, hsplit, hdrop]
  rw [List.dropWhile_append_of_pos hall]
  simp only [batchTraceFrom, itemEvents, List.cons_append, List.nil_append]
  rw [List.dropWhile_cons]
  simp [List.takeWhile_cons]

/-- Witness for the amended C4: a succeeding first entry is followed by a
sleep before the second call. -/
theorem C4_sleep_after_success_witness :
    BatchEvent.sleep 0 ∈
      betweenCalls (batchTrace [Except.ok ⟨"image/png", "AA=="⟩, Except.error "x"]) 0 :=
  C4_sleep_after_success [Except.ok ⟨"image/png", "AA=="⟩, Except.error "x"] 0
    ⟨"image/png", "AA=="⟩ (by decide) rfl

end IWT
